import Mathlib

/-!
Shallow embedding of src/timing.js (the Timing module).

The host environment (window.performance and document) is modelled by the
structure `Host`: a flag recording whether window.performance.timing is
implemented, the mark table mapping each W3C Navigation Timing mark name to
its millisecond value (an Option, with none standing for an absent or
undefined entry), and the document readyState string.

JavaScript return values translate as follows: a function that can return
undefined becomes Option-valued (none is undefined, i.e. the spec value
called not available); numeric results of the interval arithmetic are
rationals, since the source divides milliseconds by 1000. JavaScript
truthiness of a looked-up mark (the t0 && t1 guard) is: defined and
non-zero. Console warnings are diagnostics that never affect a returned
value, so they are not modelled.
-/

set_option autoImplicit false

namespace Timing

/-- The fixed enumeration of W3C Navigation Timing mark names used by
src/timing.js lines 7 to 27. -/
inductive Mark where
  | navigationStart
  | unloadEventStart
  | unloadEventEnd
  | redirectStart
  | redirectEnd
  | fetchStart
  | domainLookupStart
  | domainLookupEnd
  | connectStart
  | connectEnd
  | secureConnectionStart
  | requestStart
  | responseStart
  | responseEnd
  | domLoading
  | domInteractive
  | domContentLoadedEventStart
  | domContentLoadedEventEnd
  | domComplete
  | loadEventStart
  | loadEventEnd
  deriving DecidableEq, Repr

/-- The host environment as the module observes it: whether
window.performance.timing exists, the mark table (none models an absent or
undefined entry), and document.readyState. -/
structure Host where
  timingImplemented : Bool
  marks : Mark → Option ℕ
  readyState : String

/-- ready, src/timing.js lines 95 to 97: document.readyState equals the
string complete. -/
def ready (h : Host) : Bool :=
  h.readyState == "complete"

/-- get, src/timing.js lines 121 to 129: when timing is implemented, return
the raw mark table entry (after an advisory warning when the document is
not loaded, which changes nothing); otherwise fall off the end and return
undefined (none). -/
def get (h : Host) (key : Mark) : Option ℕ :=
  if h.timingImplemented then h.marks key else none

/-- JavaScript truthiness of a looked-up mark value: defined and non-zero.
This is the t0 && t1 guard of the timing function. -/
def truthy : Option ℕ → Bool
  | none => false
  | some v => v != 0

/-- timing, src/timing.js lines 131 to 138: when timing is implemented and
both raw lookups are truthy, return (t1 - t0) / 1000; otherwise fall off
the end and return undefined (none). -/
def timing (h : Host) (s e : Mark) : Option ℚ :=
  if h.timingImplemented then
    let t0 := get h s
    let t1 := get h e
    if truthy t0 && truthy t1 then
      some ((((t1.getD 0 : ℕ) : ℚ) - ((t0.getD 0 : ℕ) : ℚ)) / 1000)
    else
      none
  else
    none

/-- fromSameOrigin, src/timing.js lines 140 to 142: the strict inequality
comparisons get(unloadEventStart) !== 0 and get(unloadEventEnd) !== 0,
conjoined. Note that an undefined lookup compares unequal to 0. -/
def fromSameOrigin (h : Host) : Bool :=
  decide (get h Mark.unloadEventStart ≠ some 0)
    && decide (get h Mark.unloadEventEnd ≠ some 0)

/-- real, src/timing.js lines 144 to 146. -/
def real (h : Host) : Option ℚ :=
  timing h Mark.navigationStart Mark.loadEventEnd

/-- total, src/timing.js lines 148 to 150. -/
def total (h : Host) : Option ℚ :=
  timing h Mark.fetchStart Mark.loadEventEnd

/-- network, src/timing.js lines 152 to 154. -/
def network (h : Host) : Option ℚ :=
  timing h Mark.fetchStart Mark.responseEnd

/-- redirect, src/timing.js lines 156 to 158: note the argument order,
timing(redirectEnd, redirectStart). -/
def redirect (h : Host) : Option ℚ :=
  timing h Mark.redirectEnd Mark.redirectStart

/-- download, src/timing.js lines 160 to 162. -/
def download (h : Host) : Option ℚ :=
  timing h Mark.responseStart Mark.responseEnd

/-- application, src/timing.js lines 164 to 166. -/
def application (h : Host) : Option ℚ :=
  timing h Mark.requestStart Mark.responseEnd

/-- dns, src/timing.js lines 168 to 170. -/
def dns (h : Host) : Option ℚ :=
  timing h Mark.domainLookupStart Mark.domainLookupEnd

/-- tcp, src/timing.js lines 172 to 174. -/
def tcp (h : Host) : Option ℚ :=
  timing h Mark.connectStart Mark.connectEnd

/-- ssl, src/timing.js lines 176 to 178. -/
def ssl (h : Host) : Option ℚ :=
  timing h Mark.secureConnectionStart Mark.connectEnd

/-- request, src/timing.js lines 180 to 182. -/
def request (h : Host) : Option ℚ :=
  timing h Mark.requestStart Mark.responseStart

/-- response, src/timing.js lines 184 to 186. -/
def response (h : Host) : Option ℚ :=
  timing h Mark.responseStart Mark.responseEnd

/-- parse, src/timing.js lines 188 to 190. -/
def parse (h : Host) : Option ℚ :=
  timing h Mark.domLoading Mark.domInteractive

/-- dom, src/timing.js lines 199 to 201. -/
def dom (h : Host) : Option ℚ :=
  timing h Mark.domLoading Mark.domComplete

/-- external, src/timing.js lines 192 to 197: when both dom() and parse()
are defined, return dom() - parse(); otherwise fall off the end and return
undefined (none). -/
def external (h : Host) : Option ℚ :=
  match dom h, parse h with
  | some d, some p => some (d - p)
  | _, _ => none

/-- load, src/timing.js lines 203 to 205. -/
def load (h : Host) : Option ℚ :=
  timing h Mark.loadEventStart Mark.loadEventEnd

/-- domContentLoad, src/timing.js lines 207 to 209. -/
def domContentLoad (h : Host) : Option ℚ :=
  timing h Mark.domContentLoadedEventStart Mark.domContentLoadedEventEnd

/-- unload, src/timing.js lines 211 to 213. -/
def unload (h : Host) : Option ℚ :=
  timing h Mark.unloadEventStart Mark.unloadEventEnd

/-- timeToFirstByte, src/timing.js lines 215 to 217. -/
def timeToFirstByte (h : Host) : Option ℚ :=
  timing h Mark.fetchStart Mark.responseStart

/-- timeToLastByte, src/timing.js lines 219 to 221. -/
def timeToLastByte (h : Host) : Option ℚ :=
  timing h Mark.fetchStart Mark.responseEnd

/-- timeToInteractive, src/timing.js lines 223 to 225. -/
def timeToInteractive (h : Host) : Option ℚ :=
  timing h Mark.fetchStart Mark.domInteractive

/-- timeToDomComplete, src/timing.js lines 227 to 229. -/
def timeToDomComplete (h : Host) : Option ℚ :=
  timing h Mark.fetchStart Mark.domComplete

/-- timeToDomReady, src/timing.js lines 231 to 233. -/
def timeToDomReady (h : Host) : Option ℚ :=
  timing h Mark.fetchStart Mark.domContentLoadedEventEnd

/-- The list of all derived metric operations of the catalog, used to state
properties quantified over every metric. -/
def metricCatalog : List (Host → Option ℚ) :=
  [real, total, network, redirect, download, application, dns, tcp, ssl,
   request, response, parse, external, dom, load, domContentLoad, unload,
   timeToFirstByte, timeToLastByte, timeToInteractive, timeToDomComplete,
   timeToDomReady]

/-- The statement list of the switch on the navigation type code,
src/timing.js lines 55 to 64: four assignments to the navigationType
variable, in source order, with no break between them. -/
def navigationSwitchBody : List String :=
  ["navigation", "reload", "history", "unknown"]

/-- Which case label the switch enters at for a given code: case 0, case 1,
case 2, case 255, or no match. -/
def navigationCaseIndex (code : ℕ) : Option ℕ :=
  if code = 0 then some 0
  else if code = 1 then some 1
  else if code = 2 then some 2
  else if code = 255 then some 3
  else none

/-- navigationType, src/timing.js lines 53 to 65: JavaScript switch
semantics without break statements. Execution enters at the matching case
label and runs every remaining assignment to the end of the switch, so the
last assignment executed wins; with no matching label the variable stays
undefined (none). -/
def navigationTypeOf (code : ℕ) : Option String :=
  match navigationCaseIndex code with
  | none => none
  | some i => (navigationSwitchBody.drop i).foldl (fun _ s => some s) none

/-- The mapping of navigation type codes to category names as the spec
prescribes it: a direct enumeration table 0 to navigation, 1 to reload,
2 to history, 255 to unknown. Written from the spec wording, to compare
with the switch the source actually implements. -/
def navigationTypeSpecTable (code : ℕ) : Option String :=
  if code = 0 then some "navigation"
  else if code = 1 then some "reload"
  else if code = 2 then some "history"
  else if code = 255 then some "unknown"
  else none

/-- State of the monotonic clock the stopwatch reads: the stream of
readings the host will return, and how many readings have been taken. -/
structure ClockState where
  stream : ℕ → ℚ
  ticks : ℕ

/-- now, src/timing.js lines 72 to 93: one call to the host clock returns
the next reading and advances the count of readings taken. -/
def now (s : ClockState) : ℚ × ClockState :=
  (s.stream s.ticks, ⟨s.stream, s.ticks + 1⟩)

/-- timeMS, src/timing.js lines 102 to 115: read the clock, apply the
block to its binding and argument list (the block may itself consume clock
readings, modelled as a state transformer), read the clock again, and
return the difference in milliseconds together with the final clock
state. -/
def timeMS {β α : Type} (block : β → List α → ClockState → ClockState)
    (binding : β) (args : List α) (s : ClockState) : ℚ × ClockState :=
  let r0 := now s
  let s1 := block binding args r0.2
  let r1 := now s1
  (r1.1 - r0.1, r1.2)

/-- time, src/timing.js lines 117 to 119: delegate to timeMS with exactly
the same arguments and divide the measured value by 1000. -/
def time {β α : Type} (block : β → List α → ClockState → ClockState)
    (binding : β) (args : List α) (s : ClockState) : ℚ × ClockState :=
  let r := timeMS block binding args s
  (r.1 / 1000, r.2)

/-- measure, src/timing.js line 271: the public alias bound to the same
function as time. -/
def measure {β α : Type} (block : β → List α → ClockState → ClockState)
    (binding : β) (args : List α) (s : ClockState) : ℚ × ClockState :=
  time block binding args s

/-- Number.prototype.toFixed with 3 fraction digits as the source applies
it, src/timing.js line 240: round to the nearest multiple of 1/1000 with
ties away from zero, then print sign, integer part, a dot, and exactly
three fraction digits. -/
def toFixed3 (x : ℚ) : String :=
  let sign := if x < 0 then "-" else ""
  let n : ℕ := (Int.floor (|x| * 1000 + 1 / 2)).toNat
  let fpStr := toString (n % 1000)
  sign ++ toString (n / 1000) ++ "."
    ++ String.mk (List.replicate (3 - fpStr.length) '0') ++ fpStr

/-- pp, src/timing.js lines 235 to 243: call the metric, print N/A when it
is undefined and otherwise the value with toFixed(3) and an s suffix,
ending the line. -/
def pp (h : Host) (f : Host → Option ℚ) : String :=
  match f h with
  | none => "N/A" ++ "\n"
  | some v => toFixed3 v ++ "s" ++ "\n"

/-- log, src/timing.js lines 245 to 262: the text report, a three line
header then one labelled pp line per reported metric, with a blank line
between the two groups. -/
def log (h : Host) : String :=
  "\n"
  ++ "Timings\n"
  ++ "-----------------------------\n"
  ++ "               Network " ++ pp h network
  ++ "              Download " ++ pp h download
  ++ "           Application " ++ pp h application
  ++ "                 Parse " ++ pp h parse
  ++ "       External Assets " ++ pp h external
  ++ "              Document " ++ pp h dom
  ++ "\n"
  ++ "    Time to First Byte " ++ pp h timeToFirstByte
  ++ "   Time to Interactive " ++ pp h timeToInteractive
  ++ "Time to Document Ready " ++ pp h timeToDomReady
  ++ "    Total Time to Load " ++ pp h total

/-- The mark table of the catalog scenario in the spec. Marks the scenario
does not list are zero. -/
def marksC3 : Mark → Option ℕ
  | Mark.navigationStart => some 50
  | Mark.fetchStart => some 100
  | Mark.domainLookupStart => some 110
  | Mark.domainLookupEnd => some 140
  | Mark.connectStart => some 140
  | Mark.connectEnd => some 180
  | Mark.requestStart => some 180
  | Mark.responseStart => some 300
  | Mark.responseEnd => some 350
  | Mark.domLoading => some 350
  | Mark.domInteractive => some 500
  | Mark.domComplete => some 700
  | Mark.loadEventStart => some 700
  | Mark.loadEventEnd => some 720
  | _ => some 0

/-- A host with timing implemented and the scenario mark table. -/
def hostC3 : Host := ⟨true, marksC3, "complete"⟩

/-- A host whose marks are all equal and non-zero, for the zero-length
interval case. -/
def hostEq : Host := ⟨true, fun _ => some 200, "complete"⟩

/-- A host whose marks are all zero. -/
def host0 : Host := ⟨true, fun _ => some 0, "complete"⟩

/-- A host with redirectStart 100 and redirectEnd 150, all other marks
zero. -/
def hostC4 : Host :=
  ⟨true,
   fun k =>
     if k = Mark.redirectStart then some 100
     else if k = Mark.redirectEnd then some 150
     else some 0,
   "complete"⟩

/-- A host with unloadEventStart 5 and unloadEventEnd 0, all other marks
zero: exactly one unload mark is populated. -/
def hostC5 : Host :=
  ⟨true,
   fun k => if k = Mark.unloadEventStart then some 5 else some 0,
   "complete"⟩

/-- A host on which the mark source is entirely absent. -/
def hostAbsent : Host := ⟨false, fun _ => some 0, "loading"⟩

/-- A host with the parse and document phase marks populated, all other
marks zero. -/
def hostC8 : Host :=
  ⟨true,
   fun k =>
     if k = Mark.domLoading then some 350
     else if k = Mark.domInteractive then some 500
     else if k = Mark.domComplete then some 700
     else some 0,
   "complete"⟩

/-- Evaluation lemma for the interval function: when both raw lookups are
defined and non-zero, timing returns the millisecond difference divided by
1000. -/
theorem timing_eval (h : Host) (s e : Mark) (a b : ℕ)
    (hs : get h s = some a) (he : get h e = some b)
    (ha : a ≠ 0) (hb : b ≠ 0) :
    timing h s e = some (((b : ℚ) - (a : ℚ)) / 1000) := by
  have himp : h.timingImplemented = true := by
    cases hti : h.timingImplemented
    · unfold get at hs
      rw [hti] at hs
      simp at hs
    · rfl
  rw [timing, himp]
  simp [hs, he, truthy, ha, hb]

/-- Evaluation lemma for the interval function: when either raw lookup is
undefined or zero, timing returns none. -/
theorem timing_none (h : Host) (s e : Mark)
    (hbad : get h s = none ∨ get h s = some 0 ∨ get h e = none ∨ get h e = some 0) :
    timing h s e = none := by
  cases hti : h.timingImplemented
  · rw [timing, hti]
    simp
  · rcases hbad with hb1 | hb1 | hb1 | hb1 <;>
      · rw [timing, hti]
        simp [hb1, truthy]

/-- C1: for every pair of mark names whose raw lookups are both available
(defined and non-zero) with the end value at least the start value, the
interval function returns exactly the end value minus the start value,
divided by 1000; in particular, equal available marks give the zero-length
duration some 0, not none. -/
theorem timing_available_pairs (h : Host) (s e : Mark) (a b : ℕ)
    (hs : get h s = some a) (he : get h e = some b)
    (ha : a ≠ 0) (hb : b ≠ 0) (hle : a ≤ b) :
    timing h s e = some (((b : ℚ) - (a : ℚ)) / 1000) ∧
    (a = b → timing h s e = some 0) := by
  have main := timing_eval h s e a b hs he ha hb
  refine ⟨main, fun hab => ?_⟩
  subst hab
  simpa using main

/-- Witness for C1 at a concrete host whose marks are all 200: the
interval between two equal available marks is some 0. -/
theorem timing_available_pairs_witness :
    timing hostEq Mark.fetchStart Mark.responseStart = some 0 :=
  (timing_available_pairs hostEq Mark.fetchStart Mark.responseStart 200 200 rfl rfl
    (by decide) (by decide) (by decide)).2 rfl

/-- C2: whenever either raw lookup of an interval is not available, that
is undefined or zero, the interval function returns none, never some 0. -/
theorem timing_unavailable_propagates (h : Host) (s e : Mark)
    (hbad : get h s = none ∨ get h s = some 0 ∨ get h e = none ∨ get h e = some 0) :
    timing h s e = none :=
  timing_none h s e hbad

/-- Witness for C2 at a concrete host whose marks are all zero: with
redirectStart and redirectEnd both zero, the redirect metric is none, not
some 0. -/
theorem timing_unavailable_propagates_witness :
    redirect host0 = none := by
  exact timing_unavailable_propagates host0 Mark.redirectEnd Mark.redirectStart
    (Or.inr (Or.inr (Or.inr rfl)))

/-- C3: on the scenario mark table the catalog metrics take exactly the
values the spec lists: dns 0.030, tcp 0.040, request 0.120, download
0.050, network 0.250, parse 0.150, document total 0.350, external assets
0.200, total load 0.620, total page 0.670, time to first byte 0.200
seconds. -/
theorem scenario_catalog_values :
    dns hostC3 = some (30 / 1000) ∧
    tcp hostC3 = some (40 / 1000) ∧
    request hostC3 = some (120 / 1000) ∧
    download hostC3 = some (50 / 1000) ∧
    network hostC3 = some (250 / 1000) ∧
    parse hostC3 = some (150 / 1000) ∧
    dom hostC3 = some (350 / 1000) ∧
    external hostC3 = some (200 / 1000) ∧
    total hostC3 = some (620 / 1000) ∧
    real hostC3 = some (670 / 1000) ∧
    timeToFirstByte hostC3 = some (200 / 1000) := by
  have eDns := timing_eval hostC3 Mark.domainLookupStart Mark.domainLookupEnd 110 140
    rfl rfl (by decide) (by decide)
  have eTcp := timing_eval hostC3 Mark.connectStart Mark.connectEnd 140 180
    rfl rfl (by decide) (by decide)
  have eReq := timing_eval hostC3 Mark.requestStart Mark.responseStart 180 300
    rfl rfl (by decide) (by decide)
  have eDl := timing_eval hostC3 Mark.responseStart Mark.responseEnd 300 350
    rfl rfl (by decide) (by decide)
  have eNet := timing_eval hostC3 Mark.fetchStart Mark.responseEnd 100 350
    rfl rfl (by decide) (by decide)
  have ePar := timing_eval hostC3 Mark.domLoading Mark.domInteractive 350 500
    rfl rfl (by decide) (by decide)
  have eDom := timing_eval hostC3 Mark.domLoading Mark.domComplete 350 700
    rfl rfl (by decide) (by decide)
  have eTot := timing_eval hostC3 Mark.fetchStart Mark.loadEventEnd 100 720
    rfl rfl (by decide) (by decide)
  have eReal := timing_eval hostC3 Mark.navigationStart Mark.loadEventEnd 50 720
    rfl rfl (by decide) (by decide)
  have eTtfb := timing_eval hostC3 Mark.fetchStart Mark.responseStart 100 300
    rfl rfl (by decide) (by decide)
  have hdom : dom hostC3 = some (350 / 1000) := by
    rw [dom, eDom]
    norm_num
  have hpar : parse hostC3 = some (150 / 1000) := by
    rw [parse, ePar]
    norm_num
  have harith : ((350 : ℚ) / 1000 - 150 / 1000) = 200 / 1000 := by norm_num
  refine ⟨?_, ?_, ?_, ?_, ?_, hpar, hdom, ?_, ?_, ?_, ?_⟩
  · rw [dns, eDns]
    norm_num
  · rw [tcp, eTcp]
    norm_num
  · rw [request, eReq]
    norm_num
  · rw [download, eDl]
    norm_num
  · rw [network, eNet]
    norm_num
  · simp [external, hdom, hpar, harith]
  · rw [total, eTot]
    norm_num
  · rw [real, eReal]
    norm_num
  · rw [timeToFirstByte, eTtfb]
    norm_num

/-- C4: the redirect metric passes redirectEnd as the start argument and
redirectStart as the end argument, so with both redirect marks available
it returns redirectStart minus redirectEnd, divided by 1000. -/
theorem redirect_reversed (h : Host) (a b : ℕ)
    (hs : get h Mark.redirectStart = some a) (he : get h Mark.redirectEnd = some b)
    (ha : a ≠ 0) (hb : b ≠ 0) :
    redirect h = some (((a : ℚ) - (b : ℚ)) / 1000) := by
  rw [redirect]
  exact timing_eval h Mark.redirectEnd Mark.redirectStart b a he hs hb ha

/-- Witness for C4 at a concrete host with redirectStart 100 and
redirectEnd 150: the redirect metric is the reversed, here negative,
difference. -/
theorem redirect_reversed_witness :
    redirect hostC4 = some ((((100 : ℕ) : ℚ) - ((150 : ℕ) : ℚ)) / 1000) :=
  redirect_reversed hostC4 100 150 rfl rfl (by decide) (by decide)

/-- C5 counterexample: with unloadEventStart 5 and unloadEventEnd 0, one
unload mark is non-zero yet same-origin detection returns false, refuting
the claim that it returns true whenever at least one mark is non-zero. -/
theorem fromSameOrigin_one_nonzero_counterexample :
    get hostC5 Mark.unloadEventStart = some 5 ∧
    get hostC5 Mark.unloadEventEnd = some 0 ∧
    fromSameOrigin hostC5 = false := by
  decide

/-- C5 amended: when both unload lookups are defined, same-origin
detection returns true exactly when both values are non-zero; so it
returns false whenever at least one of them is zero, in particular when
both are. -/
theorem fromSameOrigin_iff_both_nonzero (h : Host) (a b : ℕ)
    (hs : get h Mark.unloadEventStart = some a)
    (he : get h Mark.unloadEventEnd = some b) :
    fromSameOrigin h = true ↔ (a ≠ 0 ∧ b ≠ 0) := by
  rw [fromSameOrigin, hs, he]
  simp

/-- Witness for the amended C5 at the concrete host with unload marks 5
and 0. -/
theorem fromSameOrigin_iff_both_nonzero_witness :
    fromSameOrigin hostC5 = true ↔ ((5 : ℕ) ≠ 0 ∧ (0 : ℕ) ≠ 0) :=
  fromSameOrigin_iff_both_nonzero hostC5 5 0 rfl rfl

/-- C6 counterexample: on a host whose mark source is entirely absent,
same-origin detection returns true, not false and not a distinguished not
available value, because an undefined lookup compares unequal to zero. -/
theorem absent_source_sameorigin_counterexample :
    hostAbsent.timingImplemented = false ∧ fromSameOrigin hostAbsent = true := by
  decide

/-- C6 amended: when the mark source is entirely absent every derived
metric of the catalog returns none and every operation is a total
function, so no exception propagates; the ready check still reports
whether the document readyState is complete; the same-origin check,
however, returns true rather than false. -/
theorem absent_source_degrades (h : Host) (himp : h.timingImplemented = false) :
    (∀ f ∈ metricCatalog, f h = none) ∧
    fromSameOrigin h = true ∧
    ready h = (h.readyState == "complete") := by
  have htim : ∀ s e, timing h s e = none := by
    intro s e
    rw [timing, himp]
    simp
  have hget : ∀ k, get h k = none := by
    intro k
    unfold get
    rw [himp]
    simp
  refine ⟨?_, ?_, rfl⟩
  · intro f hf
    simp only [metricCatalog] at hf
    fin_cases hf <;>
      simp [real, total, network, redirect, download, application, dns, tcp, ssl,
        request, response, parse, external, dom, load, domContentLoad, unload,
        timeToFirstByte, timeToLastByte, timeToInteractive, timeToDomComplete,
        timeToDomReady, htim]
  · simp [fromSameOrigin, hget]

/-- Witness for the amended C6 at the concrete absent-source host. -/
theorem absent_source_degrades_witness :
    dns hostAbsent = none ∧ fromSameOrigin hostAbsent = true := by
  have h := absent_source_degrades hostAbsent rfl
  exact ⟨h.1 dns (by simp [metricCatalog]), h.2.1⟩

/-- C7: the switch over the navigation type code has no break statements,
so every recognized code, 0, 1, 2 and 255, falls through to the final
assignment and is stored as unknown; this diverges from the direct
enumeration table the spec prescribes, which maps 0 to navigation. -/
theorem navigationType_fallthrough_diverges :
    navigationTypeOf 0 = some "unknown" ∧
    navigationTypeOf 1 = some "unknown" ∧
    navigationTypeOf 2 = some "unknown" ∧
    navigationTypeOf 255 = some "unknown" ∧
    navigationTypeSpecTable 0 = some "navigation" ∧
    navigationTypeOf 0 ≠ navigationTypeSpecTable 0 := by
  decide

/-- C8: the external assets metric equals the document total metric minus
the parse metric whenever both are defined, and is none whenever either
is none. -/
theorem external_composite (h : Host) :
    (∀ d p, dom h = some d → parse h = some p → external h = some (d - p)) ∧
    ((dom h = none ∨ parse h = none) → external h = none) := by
  constructor
  · intro d p hd hp
    simp [external, hd, hp]
  · intro hbad
    rcases hbad with h1 | h1 <;> cases hdm : dom h <;> cases hpm : parse h <;>
      simp_all [external]

/-- Witness for C8 at a concrete host with the document phase marks
populated. -/
theorem external_composite_witness :
    external hostC8 =
      some ((((700 : ℕ) : ℚ) - ((350 : ℕ) : ℚ)) / 1000
        - ((((500 : ℕ) : ℚ) - ((350 : ℕ) : ℚ)) / 1000)) := by
  have hdom : dom hostC8 = some ((((700 : ℕ) : ℚ) - ((350 : ℕ) : ℚ)) / 1000) := by
    rw [dom]
    exact timing_eval hostC8 Mark.domLoading Mark.domComplete 350 700 rfl rfl
      (by decide) (by decide)
  have hpar : parse hostC8 = some ((((500 : ℕ) : ℚ) - ((350 : ℕ) : ℚ)) / 1000) := by
    rw [parse]
    exact timing_eval hostC8 Mark.domLoading Mark.domInteractive 350 500 rfl rfl
      (by decide) (by decide)
  exact (external_composite hostC8).1 _ _ hdom hpar

/-- C9: the text report is the multi-line header followed by one labelled
line per reported metric, and each line renders the metric through pp,
which prints the value with three fixed fraction digits and an s suffix
when the metric is defined and the literal N/A when it is not. -/
theorem log_report_lines (h : Host) :
    (log h =
      "\n" ++ "Timings\n" ++ "-----------------------------\n"
        ++ "               Network " ++ pp h network
        ++ "              Download " ++ pp h download
        ++ "           Application " ++ pp h application
        ++ "                 Parse " ++ pp h parse
        ++ "       External Assets " ++ pp h external
        ++ "              Document " ++ pp h dom
        ++ "\n"
        ++ "    Time to First Byte " ++ pp h timeToFirstByte
        ++ "   Time to Interactive " ++ pp h timeToInteractive
        ++ "Time to Document Ready " ++ pp h timeToDomReady
        ++ "    Total Time to Load " ++ pp h total) ∧
    (∀ f v, f h = some v → pp h f = toFixed3 v ++ "s" ++ "\n") ∧
    (∀ f, f h = none → pp h f = "N/A" ++ "\n") := by
  refine ⟨rfl, ?_, ?_⟩
  · intro f v hf
    simp [pp, hf]
  · intro f hf
    simp [pp, hf]

/-- Witness for C9: on the absent-source host the network line renders
N/A, and on the all-equal host the load line renders the fixed-precision
zero value with the s suffix. -/
theorem log_report_lines_witness :
    pp hostAbsent network = "N/A" ++ "\n" ∧
    pp hostEq load = toFixed3 0 ++ "s" ++ "\n" := by
  have hl : load hostEq = some 0 := by
    have he := timing_eval hostEq Mark.loadEventStart Mark.loadEventEnd 200 200 rfl rfl
      (by decide) (by decide)
    rw [load, he]
    norm_num
  exact ⟨(log_report_lines hostAbsent).2.2 network rfl,
    (log_report_lines hostEq).2.1 load 0 hl⟩

/-- C10: the seconds stopwatch time delegates to the milliseconds
stopwatch timeMS with the same block, binding, arguments and clock state,
returning the very same measurement divided by 1000 and the same final
clock state, and measure is the same operation as time. -/
theorem time_eq_timeMS_div_1000 {β α : Type}
    (block : β → List α → ClockState → ClockState)
    (binding : β) (args : List α) (s : ClockState) :
    time block binding args s
        = ((timeMS block binding args s).1 / 1000, (timeMS block binding args s).2) ∧
    measure block binding args s = time block binding args s :=
  ⟨rfl, rfl⟩

end Timing
